import Mathlib

/-!
Shallow embedding of the ice-flow-limiter gateway (src/main.go) together with
the parts of its dependencies that the gateway's behaviour rests on: the GCRA
rate limiter of the throttled/v2 package (spec section 4.1 states the same
algorithm) and the registration behaviour of net/http.ServeMux.  All times are
integer nanoseconds, matching Go's time.Duration.
-/

namespace IceFlowLimiter

/-- One route entry of the configuration (src/main.go, GatewayItem). -/
structure GatewayItem where
  frontend : String
  backend : String
  maxReqPerSec : Int
  maxBurst : Int
  label : String
deriving DecidableEq

/-- The configuration file contents (src/main.go, Configuration). -/
structure Configuration where
  routes : List GatewayItem
  metrics : Bool
  port : String
deriving DecidableEq

/-- Modelled from the spec and the throttled/v2 dependency (not under src/):
a rate is its emission period in nanoseconds (throttled.Rate.period). -/
structure Rate where
  period : Int
deriving DecidableEq

/-- Modelled from the spec and throttled.PerSec (dependency, not under src/):
the period is one second (10^9 ns) divided by n, and zero when n is not
positive, exactly as throttled's perPeriod computes it. -/
def PerSec (n : Int) : Rate :=
  ⟨if 0 < n then 1000000000 / n else 0⟩

/-- Models throttled.RateQuota (dependency, not under src/). -/
structure RateQuota where
  maxRate : Rate
  maxBurst : Int
deriving DecidableEq

/-- Compiled GCRA parameters (throttled.GCRARateLimiter): the spec's
delayVariationTolerance (here including the extra emission interval that
throttled folds into it) and emissionInterval, in nanoseconds. -/
structure GCRARateLimiter where
  delayVariationTolerance : Int
  emissionInterval : Int
deriving DecidableEq

/-- Models throttled.NewGCRARateLimiter (dependency, not under src/): a
negative burst or a non-positive period is a configuration error raised at
construction time (spec section 4.1, error conditions); otherwise the
tolerance is period * (burst + 1) and the emission interval is the period. -/
def NewGCRARateLimiter (quota : RateQuota) : Except String GCRARateLimiter :=
  if quota.maxBurst < 0 then
    .error "Invalid RateQuota. MaxBurst must be greater than zero."
  else if quota.maxRate.period ≤ 0 then
    .error "Invalid RateQuota. MaxRate must be greater than zero."
  else
    .ok ⟨quota.maxRate.period * (quota.maxBurst + 1), quota.maxRate.period⟩

/-- Modelled from the spec (section 4.1) and throttled's GCRA RateLimit with
quantity 1 (dependency, not under src/): one admission attempt against a
stored theoretical arrival time (none when the key is not yet in the store).
newTAT = max(TAT, now) + emissionInterval; the request is rejected when
now < newTAT - delayVariationTolerance, leaving the stored state untouched;
otherwise it is accepted and newTAT stored.  Header metadata (retryAfter,
remaining, resetAfter) is informational only and omitted here. -/
def rateLimit (g : GCRARateLimiter) (st : Option Int) (now : Int) :
    Bool × Option Int :=
  let tat := st.getD now
  let newTat := max tat now + g.emissionInterval
  let allowAt := newTat - g.delayVariationTolerance
  if now < allowAt then (false, st) else (true, some newTat)

/-- Issue n back-to-back admission attempts at the same instant, returning how
many were accepted together with the final stored state. -/
def requestsAt (g : GCRARateLimiter) (now : Int) :
    Option Int → Nat → Nat × Option Int
  | st, 0 => (0, st)
  | st, n + 1 =>
    let r := rateLimit g st now
    let rest := requestsAt g now r.2 n
    ((if r.1 then 1 else 0) + rest.1, rest.2)

/-- The shared limiter store (throttled memstore): a map from classification
key to stored theoretical arrival time.  With VaryBy Path (src/main.go line
115) the key is the request path. -/
abbrev MemStoreState := String → Option Int

/-- One request against the shared store: look up the key's state, run the
key's limiter, write the resulting state back at that key only. -/
def stepTrace (params : String → GCRARateLimiter) (σ : MemStoreState)
    (req : String × Int) : Bool × MemStoreState :=
  let r := rateLimit (params req.1) (σ req.1) req.2
  (r.1, fun k => if k = req.1 then r.2 else σ k)

/-- Run a trace of (path, time) requests through the shared store and collect
the admission decisions made for one given path, in order. -/
def decisionsFor (params : String → GCRARateLimiter) (key : String) :
    MemStoreState → List (String × Int) → List Bool
  | _, [] => []
  | σ, req :: rest =>
    let r := stepTrace params σ req
    if req.1 = key then r.1 :: decisionsFor params key r.2 rest
    else decisionsFor params key r.2 rest

/-- An HTTP request as the handler sees it: method, request URI (used as the
metrics route label), header map and body. -/
structure HTTPRequest where
  method : String
  requestURI : String
  header : List (String × String)
  body : String
deriving DecidableEq

/-- Outcome of io.Copy of the backend body to the caller (src/main.go line
93): either it completes, or it fails after some bytes were already sent. -/
inductive CopyOutcome where
  | ok : CopyOutcome
  | failed (sent : String) (msg : String) : CopyOutcome
deriving DecidableEq

/-- Behaviour of the environment for one forwarded request: http.NewRequest
fails (src/main.go line 64), client.Do fails (line 79), or the backend
answers with a status, headers and body, with the body copy either
succeeding or failing partway. -/
inductive BackendOutcome where
  | newRequestErr (msg : String) : BackendOutcome
  | transportErr (msg : String) : BackendOutcome
  | response (status : Nat) (header : List (String × String)) (body : String)
      (copy : CopyOutcome) : BackendOutcome
deriving DecidableEq

/-- The outbound request built by RPHandler (src/main.go lines 63 and 72-74):
http.NewRequest with the inbound method, the backend URL and the inbound body
stream, then every inbound header copied onto the fresh empty header map, so
the outbound header map equals the inbound one. -/
def outboundRequest (backend : String) (r : HTTPRequest) : HTTPRequest :=
  { method := r.method, requestURI := backend, header := r.header,
    body := r.body }

/-- Observable effects of one RPHandler invocation: counter increments,
the outbound backend request (none when construction failed), the status,
headers and body written to the caller, and the status codes carried by the
recorded latency metric events, in order. -/
structure HandlerResult where
  counterInc : Nat
  outbound : Option HTTPRequest
  status : Nat
  header : List (String × String)
  body : String
  events : List Nat
deriving DecidableEq

/-- RPHandler (src/main.go lines 56-103).  The counter increments once at
entry when metrics are enabled (lines 59-61).  http.Error paths write a 500
with the message and a newline.  On a backend response the headers and status
are copied verbatim (lines 88-91).  When io.Copy fails, the status was
already written so http.Error only appends the message to the body, a 500
event is recorded and, because that branch does not return, the line 100
event is recorded as well.  Line 100 records the literal http.StatusOK (200),
not resp.StatusCode.  Elapsed times and http.Error's extra headers are
omitted; error-path headers are abbreviated to the Content-Type http.Error
sets. -/
def RPHandler (metrics : Bool) (backend : String) (r : HTTPRequest)
    (out : BackendOutcome) : HandlerResult :=
  let inc : Nat := if metrics then 1 else 0
  match out with
  | .newRequestErr msg =>
    { counterInc := inc, outbound := none, status := 500,
      header := [("Content-Type", "text/plain; charset=utf-8")],
      body := msg ++ "\n",
      events := if metrics then [500] else [] }
  | .transportErr msg =>
    { counterInc := inc, outbound := some (outboundRequest backend r),
      status := 500,
      header := [("Content-Type", "text/plain; charset=utf-8")],
      body := msg ++ "\n",
      events := if metrics then [500] else [] }
  | .response st hd bd c =>
    match c with
    | .ok =>
      { counterInc := inc, outbound := some (outboundRequest backend r),
        status := st, header := hd, body := bd,
        events := if metrics then [200] else [] }
    | .failed sent msg =>
      { counterInc := inc, outbound := some (outboundRequest backend r),
        status := st, header := hd, body := sent ++ msg ++ "\n",
        events := if metrics then [500, 200] else [] }

/-- Observable effects of one request through the rate-limiting middleware:
whether it was limited, the inner handler's result when it ran, the status
returned, the counter increments and the metric events. -/
structure GatewayResult where
  limited : Bool
  handler : Option HandlerResult
  status : Nat
  counterInc : Nat
  events : List Nat
deriving DecidableEq

/-- Models throttled's HTTPRateLimiter.RateLimit middleware (dependency, not
under src/) composed with RPHandler exactly as src/main.go lines 126 and 128
do: the middleware consults the GCRA limiter first; when limited it writes a
429 via the default denied handler and the wrapped RPHandler never runs
(so neither its counter increment nor its metric events happen); otherwise
the wrapped RPHandler runs.  Returns the result and the updated limiter
state. -/
def rateLimitWrap (g : GCRARateLimiter) (st : Option Int) (now : Int)
    (metrics : Bool) (backend : String) (r : HTTPRequest)
    (out : BackendOutcome) : GatewayResult × Option Int :=
  let a := rateLimit g st now
  if a.1 then
    let h := RPHandler metrics backend r out
    ({ limited := false, handler := some h, status := h.status,
       counterInc := h.counterInc, events := h.events }, a.2)
  else
    ({ limited := true, handler := none, status := 429,
       counterInc := 0, events := [] }, a.2)

/-- A ServeMux is the list of registered patterns, in registration order. -/
abbrev ServeMux := List String

/-- Models net/http ServeMux.Handle (Go standard library, not under src/):
registering a pattern that is already registered panics with the message
shown; the panic is modelled as an error value. -/
def muxHandle (mux : ServeMux) (pat : String) : Except String ServeMux :=
  if pat ∈ mux then .error ("http: multiple registrations for " ++ pat)
  else .ok (mux ++ [pat])

/-- LoadGateway (src/main.go lines 105-131): for each item build the quota
from PerSec and the burst, construct the GCRA limiter (log.Fatal on error,
modelled as an error value) and register the frontend pattern on the mux.
The metrics and non-metrics branches (lines 118-129) register the same
pattern with the same wrapped handler shape, so the flag does not affect
registration and is dropped here. -/
def LoadGateway (mux : ServeMux) : List GatewayItem → Except String ServeMux
  | [] => .ok mux
  | i :: rest =>
    match NewGCRARateLimiter ⟨PerSec i.maxReqPerSec, i.maxBurst⟩ with
    | .error e => .error e
    | .ok _ =>
      match muxHandle mux i.frontend with
      | .error e => .error e
      | .ok m => LoadGateway m rest

/-- The http.Server fields set by main (src/main.go lines 159-164). -/
structure ServerSetup where
  addr : String
  writeTimeoutSec : Nat
  readTimeoutSec : Nat
deriving DecidableEq

/-- main builds the server (src/main.go lines 159-164): the address is the
literal "127.0.0.1:" followed by the configured port, and both timeouts are
the literal 15 seconds. -/
def mainServer (config : Configuration) : ServerSetup :=
  { addr := "127.0.0.1:" ++ config.port, writeTimeoutSec := 15,
    readTimeoutSec := 15 }

/-- Unfolding equation for one admission attempt. -/
theorem rateLimit_eq (g : GCRARateLimiter) (st : Option Int) (now : Int) :
    rateLimit g st now =
      if now < max (st.getD now) now + g.emissionInterval -
          g.delayVariationTolerance
      then (false, st)
      else (true, some (max (st.getD now) now + g.emissionInterval)) := rfl

/-- An attempt that is not past the allowed-at instant is accepted. -/
theorem rateLimit_allowed_of (g : GCRARateLimiter) (st : Option Int)
    (now : Int)
    (h : ¬ now < max (st.getD now) now + g.emissionInterval -
        g.delayVariationTolerance) :
    rateLimit g st now =
      (true, some (max (st.getD now) now + g.emissionInterval)) := by
  rw [rateLimit_eq, if_neg h]

/-- An attempt before the allowed-at instant is rejected, state untouched. -/
theorem rateLimit_limited_of (g : GCRARateLimiter) (st : Option Int)
    (now : Int)
    (h : now < max (st.getD now) now + g.emissionInterval -
        g.delayVariationTolerance) :
    rateLimit g st now = (false, st) := by
  rw [rateLimit_eq, if_pos h]

/-- Unfolding equation: zero attempts. -/
theorem requestsAt_zero (g : GCRARateLimiter) (now : Int) (st : Option Int) :
    requestsAt g now st 0 = (0, st) := rfl

/-- Unfolding equation: one attempt followed by the rest. -/
theorem requestsAt_succ (g : GCRARateLimiter) (now : Int) (st : Option Int)
    (n : Nat) :
    requestsAt g now st (n + 1) =
      ((if (rateLimit g st now).1 then 1 else 0) +
          (requestsAt g now (rateLimit g st now).2 n).1,
        (requestsAt g now (rateLimit g st now).2 n).2) := rfl

/-- Simultaneous attempts at time 0 against a limiter compiled from burst B
and emission interval T, starting from a stored arrival time of j * T with
j at most B + 1: exactly min n (B + 1 - j) of n attempts are accepted, and
the stored arrival time advances accordingly. -/
theorem requestsAt_some_eq (T : Int) (hT : 0 < T) (B : Nat) :
    ∀ (n j : Nat), j ≤ B + 1 →
      requestsAt ⟨T * ((B : Int) + 1), T⟩ 0 (some ((j : Int) * T)) n =
        (min n (B + 1 - j),
          some (((min n (B + 1 - j) + j : Nat) : Int) * T)) := by
  intro n
  induction n with
  | zero =>
    intro j hj
    rw [requestsAt_zero]
    simp
  | succ n ih =>
    intro j hj
    have hjT : (0 : Int) ≤ (j : Int) * T := by positivity
    have hmax : max ((j : Int) * T) 0 = (j : Int) * T := max_eq_left hjT
    rcases Nat.lt_or_ge j (B + 1) with hlt | hge
    · have hcast : (j : Int) ≤ (B : Int) := by
        exact_mod_cast Nat.lt_succ_iff.mp hlt
      have hnn : (0 : Int) ≤ ((B : Int) - j) * T :=
        mul_nonneg (sub_nonneg.2 hcast) hT.le
      have hcond : ¬ ((0 : Int) <
          max ((some ((j : Int) * T)).getD 0) 0 + T - T * ((B : Int) + 1)) := by
        simp only [Option.getD_some]
        rw [hmax]
        push_neg
        nlinarith
      have hstep : rateLimit ⟨T * ((B : Int) + 1), T⟩
          (some ((j : Int) * T)) 0 =
          (true, some (((j + 1 : Nat) : Int) * T)) := by
        rw [rateLimit_allowed_of _ _ _ hcond]
        simp only [Option.getD_some]
        rw [hmax]
        push_cast
        ring_nf
      rw [requestsAt_succ, hstep]
      simp only [if_true]
      rw [ih (j + 1) hlt]
      have e1 : 1 + min n (B + 1 - (j + 1)) = min (n + 1) (B + 1 - j) := by
        omega
      have e2 : min n (B + 1 - (j + 1)) + (j + 1) =
          min (n + 1) (B + 1 - j) + j := by omega
      rw [Prod.mk.injEq]
      exact ⟨e1, by rw [e2]⟩
    · have hj1 : j = B + 1 := le_antisymm hj hge
      subst hj1
      have hcond : (0 : Int) <
          max ((some (((B + 1 : Nat) : Int) * T)).getD 0) 0 + T -
            T * ((B : Int) + 1) := by
        simp only [Option.getD_some]
        have h1 : (0 : Int) ≤ ((B + 1 : Nat) : Int) * T := by positivity
        rw [max_eq_left h1]
        push_cast
        nlinarith
      have hstep : rateLimit ⟨T * ((B : Int) + 1), T⟩
          (some (((B + 1 : Nat) : Int) * T)) 0 =
          (false, some (((B + 1 : Nat) : Int) * T)) :=
        rateLimit_limited_of _ _ _ hcond
      rw [requestsAt_succ, hstep]
      simp only [if_false]
      rw [ih (B + 1) le_rfl]
      have e1 : min n (B + 1 - (B + 1)) = 0 := by omega
      have e2 : min (n + 1) (B + 1 - (B + 1)) = 0 := by omega
      rw [Prod.mk.injEq]
      refine ⟨?_, by rw [e1, e2]⟩
      rw [e1, e2]
      simp

/-- Simultaneous attempts at time 0 from a fresh key: the first attempt is
always accepted, and n further attempts accept min n B more. -/
theorem requestsAt_none_eq (T : Int) (hT : 0 < T) (B : Nat) (n : Nat) :
    requestsAt ⟨T * ((B : Int) + 1), T⟩ 0 none (n + 1) =
      (1 + min n B, some (((min n B + 1 : Nat) : Int) * T)) := by
  have hcond : ¬ ((0 : Int) <
      max ((none : Option Int).getD 0) 0 + T - T * ((B : Int) + 1)) := by
    simp only [Option.getD_none]
    rw [max_self]
    have h1 : (0 : Int) ≤ (B : Int) * T := by positivity
    push_neg
    nlinarith
  have hstep : rateLimit ⟨T * ((B : Int) + 1), T⟩ none 0 =
      (true, some (((1 : Nat) : Int) * T)) := by
    rw [rateLimit_allowed_of _ _ _ hcond]
    simp
  rw [requestsAt_succ, hstep]
  simp only [if_true]
  rw [requestsAt_some_eq T hT B n 1 (by omega)]
  have e1 : B + 1 - 1 = B := by omega
  rw [e1]

/-- C1 (amended): for a route whose limiter is successfully built from
ratePerSecond R and burst B, issuing B + 1 requests instantaneously from a
fresh key admits all B + 1 of them (GCRA grants burst + 1 initial slots, as
the spec's own scenario states); a further simultaneous request is rejected;
and after waiting one emission interval (the code's 1/R, in nanoseconds)
exactly one more request is admitted. -/
theorem C1_rate_conformance (r : Int) (B : Nat) (g : GCRARateLimiter)
    (h : NewGCRARateLimiter ⟨PerSec r, (B : Int)⟩ = .ok g) :
    (requestsAt g 0 none (B + 1)).1 = B + 1 ∧
    (requestsAt g 0 none (B + 2)).1 = B + 1 ∧
    (rateLimit g (requestsAt g 0 none (B + 2)).2 g.emissionInterval).1 =
      true ∧
    (rateLimit g
        (rateLimit g (requestsAt g 0 none (B + 2)).2 g.emissionInterval).2
        g.emissionInterval).1 = false := by
  unfold NewGCRARateLimiter at h
  split_ifs at h with h1 h2
  injection h with hg
  subst hg
  push_neg at h2
  dsimp only at h2 ⊢
  set T : Int := (PerSec r).period with hTdef
  have hT : 0 < T := h2
  have hmin2 : min (B + 1) B = B := by omega
  have hB2 : B + 2 = (B + 1) + 1 := rfl
  have hmax3 : max (((B + 1 : Nat) : Int) * T) T =
      ((B + 1 : Nat) : Int) * T := by
    apply max_eq_left
    push_cast
    nlinarith
  have hcond3 : ¬ (T <
      max ((some (((B + 1 : Nat) : Int) * T)).getD T) T + T -
        T * ((B : Int) + 1)) := by
    simp only [Option.getD_some]
    rw [hmax3]
    push_neg
    push_cast
    nlinarith
  refine ⟨?_, ?_, ?_, ?_⟩
  · rw [requestsAt_none_eq T hT B B, min_self]
    show 1 + B = B + 1
    omega
  · rw [hB2, requestsAt_none_eq T hT B (B + 1), hmin2]
    show 1 + B = B + 1
    omega
  · rw [hB2, requestsAt_none_eq T hT B (B + 1), hmin2]
    dsimp only
    rw [rateLimit_allowed_of ⟨T * ((B : Int) + 1), T⟩
      (some (((B + 1 : Nat) : Int) * T)) T hcond3]
  · rw [hB2, requestsAt_none_eq T hT B (B + 1), hmin2]
    dsimp only
    rw [rateLimit_allowed_of ⟨T * ((B : Int) + 1), T⟩
      (some (((B + 1 : Nat) : Int) * T)) T hcond3]
    dsimp only
    simp only [Option.getD_some]
    rw [hmax3]
    have hmax4 : max (((B + 1 : Nat) : Int) * T + T) T =
        ((B + 1 : Nat) : Int) * T + T := by
      apply max_eq_left
      push_cast
      nlinarith
    have hcond4 : T <
        max ((some (((B + 1 : Nat) : Int) * T + T)).getD T) T + T -
          T * ((B : Int) + 1) := by
      simp only [Option.getD_some]
      rw [hmax4]
      push_cast
      nlinarith
    rw [rateLimit_limited_of ⟨T * ((B : Int) + 1), T⟩
      (some (((B + 1 : Nat) : Int) * T + T)) T hcond4]

/-- C1 witness: ratePerSecond 2 and burst 1 build the limiter with interval
5 * 10^8 ns and tolerance 10^9 ns; 2 simultaneous requests are all admitted,
a third is rejected, and one emission interval later exactly one more is
admitted. -/
theorem C1_rate_conformance_check :
    NewGCRARateLimiter ⟨PerSec 2, ((1 : Nat) : Int)⟩ =
        .ok ⟨1000000000, 500000000⟩ ∧
    ((requestsAt ⟨1000000000, 500000000⟩ 0 none (1 + 1)).1 = 1 + 1 ∧
      (requestsAt ⟨1000000000, 500000000⟩ 0 none (1 + 2)).1 = 1 + 1 ∧
      (rateLimit ⟨1000000000, 500000000⟩
          (requestsAt ⟨1000000000, 500000000⟩ 0 none (1 + 2)).2
          500000000).1 = true ∧
      (rateLimit ⟨1000000000, 500000000⟩
          (rateLimit ⟨1000000000, 500000000⟩
            (requestsAt ⟨1000000000, 500000000⟩ 0 none (1 + 2)).2
            500000000).2 500000000).1 = false) :=
  ⟨rfl, C1_rate_conformance 2 1 ⟨1000000000, 500000000⟩ rfl⟩

/-- C2: a rejected admission attempt leaves the stored theoretical arrival
time unchanged, and an immediate retry at the same instant returns exactly
the same decision as the original attempt. -/
theorem C2_rejection_is_free (g : GCRARateLimiter) (st : Option Int)
    (now : Int) (h : (rateLimit g st now).1 = false) :
    (rateLimit g st now).2 = st ∧
    rateLimit g (rateLimit g st now).2 now = rateLimit g st now := by
  by_cases hc : now < max (st.getD now) now + g.emissionInterval -
      g.delayVariationTolerance
  · have e : rateLimit g st now = (false, st) := by
      rw [rateLimit_eq, if_pos hc]
    rw [e]
    exact ⟨rfl, e⟩
  · have e : rateLimit g st now =
        (true, some (max (st.getD now) now + g.emissionInterval)) := by
      rw [rateLimit_eq, if_neg hc]
    rw [e] at h
    exact absurd h (by simp)

/-- C2 witness: a concrete rejected attempt (tolerance 10^9 ns, interval
5 * 10^8 ns, stored TAT 2 * 10^9 ns, now 0). -/
theorem C2_rejection_is_free_check :
    (rateLimit ⟨1000000000, 500000000⟩ (some 2000000000) 0).1 = false ∧
    ((rateLimit ⟨1000000000, 500000000⟩ (some 2000000000) 0).2 =
        some 2000000000 ∧
      rateLimit ⟨1000000000, 500000000⟩
          (rateLimit ⟨1000000000, 500000000⟩ (some 2000000000) 0).2 0 =
        rateLimit ⟨1000000000, 500000000⟩ (some 2000000000) 0) :=
  ⟨by decide, C2_rejection_is_free ⟨1000000000, 500000000⟩ (some 2000000000) 0
    (by decide)⟩

/-- C1 counterexample: ratePerSecond 2 and burst 1 compile to interval
5 * 10^8 ns and tolerance 10^9 ns; both of 2 simultaneous requests from a
fresh key are accepted, not exactly burst = 1 of them as the claim states. -/
theorem C1_claimed_count_false :
    NewGCRARateLimiter ⟨PerSec 2, 1⟩ = .ok ⟨1000000000, 500000000⟩ ∧
    (requestsAt ⟨1000000000, 500000000⟩ 0 none 2).1 ≠ 1 :=
  ⟨rfl, by decide⟩

/-- C4 counterexample: metrics enabled and the limiter rejects; the request
resolved to the route (the middleware for that route handled it) but the
request counter is not incremented, because the increment sits inside the
wrapped RPHandler which never runs on denial. -/
theorem C4_counter_not_incremented_when_denied :
    (rateLimitWrap ⟨1000000000, 500000000⟩ (some 2000000000) 0 true
        "http://backend" ⟨"GET", "/a", [], ""⟩
        (.response 200 [] "" .ok)).1.limited = true ∧
    (rateLimitWrap ⟨1000000000, 500000000⟩ (some 2000000000) 0 true
        "http://backend" ⟨"GET", "/a", [], ""⟩
        (.response 200 [] "" .ok)).1.counterInc ≠ 1 := by decide

/-- The counter increment inside RPHandler happens exactly once per
invocation when metrics are enabled, on every exit path. -/
theorem RPHandler_counterInc (metrics : Bool) (backend : String)
    (r : HTTPRequest) (out : BackendOutcome) :
    (RPHandler metrics backend r out).counterInc =
      if metrics then 1 else 0 := by
  cases out with
  | newRequestErr msg => rfl
  | transportErr msg => rfl
  | response st hd bd c => cases c <;> rfl

/-- C4 (amended): with metrics enabled the route's request counter is
incremented exactly once for every admitted request and not at all for a
denied request; with metrics disabled it is never incremented. -/
theorem C4_counter_increment (g : GCRARateLimiter) (st : Option Int)
    (now : Int) (metrics : Bool) (backend : String) (r : HTTPRequest)
    (out : BackendOutcome) :
    (rateLimitWrap g st now metrics backend r out).1.counterInc =
      if (rateLimitWrap g st now metrics backend r out).1.limited then 0
      else if metrics then 1 else 0 := by
  unfold rateLimitWrap
  cases hb : (rateLimit g st now).1 <;>
    simp [hb, RPHandler_counterInc]

/-- C5: failing input for the metric status code.  The backend answers 404
and the copy succeeds: the caller receives status 404 (relayed verbatim at
src/main.go line 91) but the latency metric event carries the literal
http.StatusOK = 200 (line 100), not the final status. -/
theorem C5_metric_status_mismatch :
    (RPHandler true "http://backend" ⟨"GET", "/a", [], ""⟩
        (.response 404 [] "not found" .ok)).status = 404 ∧
    (RPHandler true "http://backend" ⟨"GET", "/a", [], ""⟩
        (.response 404 [] "not found" .ok)).events = [200] := by decide

/-- C6: failing input for the single-metric-event property.  When streaming
the backend body fails partway, the copy-error branch records a 500 event and
then, because it does not return (src/main.go lines 93-101), the line 100
event is recorded as well: two events for one request. -/
theorem C6_two_metric_events_on_copy_failure :
    (RPHandler true "http://backend" ⟨"GET", "/a", [], ""⟩
        (.response 200 [] "full" (.failed "par" "broken pipe"))).events =
      [500, 200] := by decide

/-- C7: on an admitted request whose forwarding succeeds, the outbound
backend request carries the inbound method, header map and body unchanged,
and the backend response's status code, headers and body are relayed
unchanged to the caller. -/
theorem C7_verbatim_relay (metrics : Bool) (backend : String)
    (r : HTTPRequest) (s : Nat) (hd : List (String × String)) (bd : String) :
    (RPHandler metrics backend r (.response s hd bd .ok)).outbound =
        some (outboundRequest backend r) ∧
    (outboundRequest backend r).method = r.method ∧
    (outboundRequest backend r).header = r.header ∧
    (outboundRequest backend r).body = r.body ∧
    (RPHandler metrics backend r (.response s hd bd .ok)).status = s ∧
    (RPHandler metrics backend r (.response s hd bd .ok)).header = hd ∧
    (RPHandler metrics backend r (.response s hd bd .ok)).body = bd :=
  ⟨rfl, rfl, rfl, rfl, rfl, rfl, rfl⟩

/-- C8 counterexample: two routes declaring the same frontend path.  Loading
does not complete: the second registration hits ServeMux.Handle's duplicate
panic, so there is no last-registered winner. -/
theorem C8_last_wins_false :
    LoadGateway [] [⟨"/a", "http://b1", 2, 1, "a"⟩,
        ⟨"/a", "http://b2", 2, 1, "c"⟩] =
      .error "http: multiple registrations for /a" := rfl

/-- C10: for every configuration the server binds the literal loopback
address 127.0.0.1 on the configured port, with read and write timeouts fixed
at 15 seconds; no configuration field other than the port influences the
server setup. -/
theorem C10_loopback_fixed_timeouts (config : Configuration) :
    (mainServer config).addr = "127.0.0.1:" ++ config.port ∧
    (mainServer config).readTimeoutSec = 15 ∧
    (mainServer config).writeTimeoutSec = 15 ∧
    ∀ (routes2 : List GatewayItem) (metrics2 : Bool),
      mainServer ⟨routes2, metrics2, config.port⟩ = mainServer config :=
  ⟨rfl, rfl, rfl, fun _ _ => rfl⟩

/-- Unfolding equation for one request against the shared store. -/
theorem stepTrace_eq (params : String → GCRARateLimiter) (σ : MemStoreState)
    (req : String × Int) :
    stepTrace params σ req =
      ((rateLimit (params req.1) (σ req.1) req.2).1,
        fun k => if k = req.1 then (rateLimit (params req.1) (σ req.1) req.2).2
          else σ k) := rfl

/-- Unfolding equation: decisions over a cons trace. -/
theorem decisionsFor_cons (params : String → GCRARateLimiter) (key : String)
    (σ : MemStoreState) (req : String × Int) (rest : List (String × Int)) :
    decisionsFor params key σ (req :: rest) =
      if req.1 = key then
        (stepTrace params σ req).1 ::
          decisionsFor params key (stepTrace params σ req).2 rest
      else decisionsFor params key (stepTrace params σ req).2 rest := rfl

/-- The decisions collected for a key depend only on the store's state at
that key. -/
theorem decisionsFor_congr (params : String → GCRARateLimiter) (key : String) :
    ∀ (tr : List (String × Int)) (σ σ2 : MemStoreState), σ key = σ2 key →
      decisionsFor params key σ tr = decisionsFor params key σ2 tr := by
  intro tr
  induction tr with
  | nil => intro σ σ2 _; rfl
  | cons q rest ih =>
    intro σ σ2 hk
    rw [decisionsFor_cons, decisionsFor_cons, stepTrace_eq, stepTrace_eq]
    by_cases hq : q.1 = key
    · have hs : σ q.1 = σ2 q.1 := by rw [hq]; exact hk
      rw [hs, if_pos hq, if_pos hq]
      congr 1
      apply ih
      show (if key = q.1 then _ else σ key) = (if key = q.1 then _ else σ2 key)
      rw [if_pos hq.symm, if_pos hq.symm]
    · rw [if_neg hq, if_neg hq]
      apply ih
      show (if key = q.1 then _ else σ key) = (if key = q.1 then _ else σ2 key)
      rw [if_neg (Ne.symm hq), if_neg (Ne.symm hq)]
      exact hk

/-- C3: removing every request for path A from a trace does not change the
admission decisions made for a different path B: traffic on one route never
influences another route's decisions, because each attempt reads and writes
only its own key in the shared store. -/
theorem C3_key_independence (params : String → GCRARateLimiter)
    (A B : String) (hAB : A ≠ B) :
    ∀ (tr : List (String × Int)) (σ : MemStoreState),
      decisionsFor params B σ tr =
        decisionsFor params B σ
          (tr.filter (fun p => decide (p.1 ≠ A))) := by
  intro tr
  induction tr with
  | nil => intro σ; rfl
  | cons q rest ih =>
    intro σ
    by_cases hA : q.1 = A
    · have hqB : ¬ (q.1 = B) := by rw [hA]; exact hAB
      have hfil : (q :: rest).filter (fun p => decide (p.1 ≠ A)) =
          rest.filter (fun p => decide (p.1 ≠ A)) := by
        simp [List.filter_cons, hA]
      rw [hfil, decisionsFor_cons, if_neg hqB, stepTrace_eq]
      rw [ih]
      apply decisionsFor_congr
      show (if B = q.1 then _ else σ B) = σ B
      have hBq : B ≠ q.1 := by
        intro hh
        exact hAB (by rw [hA] at hh; exact hh.symm)
      rw [if_neg hBq]
    · have hfil : (q :: rest).filter (fun p => decide (p.1 ≠ A)) =
          q :: rest.filter (fun p => decide (p.1 ≠ A)) := by
        simp [List.filter_cons, hA]
      rw [hfil, decisionsFor_cons, decisionsFor_cons]
      by_cases hB : q.1 = B
      · rw [if_pos hB, if_pos hB]
        congr 1
        exact ih _
      · rw [if_neg hB, if_neg hB]
        exact ih _

/-- C3 witness: a concrete interleaved trace on paths /a and /b; the
decisions for /b match those of the trace with /a's requests removed. -/
theorem C3_key_independence_check :
    ("/a" : String) ≠ "/b" ∧
    decisionsFor (fun _ : String => ⟨1000000000, 500000000⟩) "/b"
        (fun _ : String => none) [("/a", 0), ("/b", 0), ("/a", 0)] =
      decisionsFor (fun _ : String => ⟨1000000000, 500000000⟩) "/b"
        (fun _ : String => none)
        ([("/a", 0), ("/b", 0), ("/a", 0)].filter
          (fun p => decide (p.1 ≠ "/a"))) :=
  ⟨by decide, C3_key_independence (fun _ : String => ⟨1000000000, 500000000⟩)
    "/a" "/b" (by decide) [("/a", 0), ("/b", 0), ("/a", 0)]
    (fun _ : String => none)⟩

/-- Unfolding equation: loading a cons route list. -/
theorem LoadGateway_cons (mux : ServeMux) (i : GatewayItem)
    (rest : List GatewayItem) :
    LoadGateway mux (i :: rest) =
      match NewGCRARateLimiter ⟨PerSec i.maxReqPerSec, i.maxBurst⟩ with
      | .error e => .error e
      | .ok _ =>
        match muxHandle mux i.frontend with
        | .error e => .error e
        | .ok m => LoadGateway m rest := rfl

/-- Registering an already-registered pattern fails (ServeMux panic). -/
theorem muxHandle_mem (mux : ServeMux) (pat : String) (h : pat ∈ mux) :
    muxHandle mux pat =
      .error ("http: multiple registrations for " ++ pat) := by
  unfold muxHandle
  rw [if_pos h]

/-- Registering a fresh pattern appends it. -/
theorem muxHandle_not_mem (mux : ServeMux) (pat : String) (h : ¬ pat ∈ mux) :
    muxHandle mux pat = .ok (mux ++ [pat]) := by
  unfold muxHandle
  rw [if_neg h]

/-- Loading fails whenever some item's frontend collides with an already
registered pattern or the items' frontends themselves contain a duplicate. -/
theorem LoadGateway_isOk_false_of_collision :
    ∀ (items : List GatewayItem) (mux : ServeMux),
      ((∃ i ∈ items, i.frontend ∈ mux) ∨
        ¬ (items.map GatewayItem.frontend).Nodup) →
      (LoadGateway mux items).isOk = false := by
  intro items
  induction items with
  | nil =>
    intro mux h
    rcases h with ⟨i, hi, _⟩ | h
    · exact absurd hi (List.not_mem_nil i)
    · simp at h
  | cons i rest ih =>
    intro mux h
    rw [LoadGateway_cons]
    cases hq : NewGCRARateLimiter ⟨PerSec i.maxReqPerSec, i.maxBurst⟩ with
    | error e => rfl
    | ok g =>
      by_cases hm : i.frontend ∈ mux
      · rw [muxHandle_mem mux i.frontend hm]
        rfl
      · rw [muxHandle_not_mem mux i.frontend hm]
        apply ih
        rcases h with ⟨j, hj, hjm⟩ | hnd
        · rcases List.mem_cons.mp hj with rfl | hjrest
          · exact absurd hjm hm
          · exact .inl ⟨j, hjrest, List.mem_append_left _ hjm⟩
        · by_cases hmem : i.frontend ∈ rest.map GatewayItem.frontend
          · rcases List.mem_map.mp hmem with ⟨j, hjrest, hje⟩
            refine .inl ⟨j, hjrest, ?_⟩
            rw [hje]
            exact List.mem_append_right _ (List.mem_singleton_self _)
          · refine .inr ?_
            intro hnd2
            rw [List.map_cons, List.nodup_cons] at hnd
            exact hnd ⟨hmem, hnd2⟩

/-- C8 (amended): a route list in which two entries declare the same
frontendPath does not load at all: the second registration panics inside
ServeMux.Handle, so loading fails instead of the last-registered route
winning. -/
theorem C8_duplicate_route_fails (items : List GatewayItem)
    (h : ¬ (items.map GatewayItem.frontend).Nodup) :
    (LoadGateway [] items).isOk = false :=
  LoadGateway_isOk_false_of_collision items [] (.inr h)

/-- C8 witness: the duplicate pair of routes from the counterexample. -/
theorem C8_duplicate_route_fails_check :
    ¬ (([⟨"/a", "http://b1", 2, 1, "a"⟩,
          ⟨"/a", "http://b2", 2, 1, "c"⟩] :
        List GatewayItem).map GatewayItem.frontend).Nodup ∧
    (LoadGateway [] [⟨"/a", "http://b1", 2, 1, "a"⟩,
        ⟨"/a", "http://b2", 2, 1, "c"⟩]).isOk = false :=
  ⟨by decide, C8_duplicate_route_fails
    [⟨"/a", "http://b1", 2, 1, "a"⟩, ⟨"/a", "http://b2", 2, 1, "c"⟩]
    (by decide)⟩

/-- A non-positive rate makes limiter construction fail: PerSec yields a
zero period, which NewGCRARateLimiter rejects. -/
theorem NewGCRARateLimiter_isOk_false_of_nonpos (r b : Int) (hr : r ≤ 0) :
    (NewGCRARateLimiter ⟨PerSec r, b⟩).isOk = false := by
  simp only [NewGCRARateLimiter, PerSec]
  rw [if_neg (not_lt.mpr hr)]
  split_ifs with h3 h4
  · rfl
  · rfl
  · exact absurd le_rfl h4

/-- Loading fails whenever some item has a non-positive rate: the limiter
construction for that item (or an earlier failure) aborts the load. -/
theorem LoadGateway_isOk_false_of_bad_rate :
    ∀ (items : List GatewayItem) (mux : ServeMux) (i : GatewayItem),
      i ∈ items → i.maxReqPerSec ≤ 0 →
      (LoadGateway mux items).isOk = false := by
  intro items
  induction items with
  | nil =>
    intro mux i hi _
    exact absurd hi (List.not_mem_nil i)
  | cons j rest ih =>
    intro mux i hi hr
    rw [LoadGateway_cons]
    cases hq : NewGCRARateLimiter ⟨PerSec j.maxReqPerSec, j.maxBurst⟩ with
    | error e => rfl
    | ok g =>
      rcases List.mem_cons.mp hi with rfl | hirest
      · have hbad := NewGCRARateLimiter_isOk_false_of_nonpos
          i.maxReqPerSec i.maxBurst hr
        rw [hq] at hbad
        exact Bool.noConfusion hbad
      · by_cases hm : j.frontend ∈ mux
        · rw [muxHandle_mem mux j.frontend hm]
          rfl
        · rw [muxHandle_not_mem mux j.frontend hm]
          exact ih (mux ++ [j.frontend]) i hirest hr

/-- C9: when a route's ratePerSecond is zero or negative, the error is raised
at limiter construction time, and loading the gateway over any route list
containing such a route fails, so the process refuses to start. -/
theorem C9_nonpositive_rate_fatal (items : List GatewayItem)
    (i : GatewayItem) (hi : i ∈ items) (hr : i.maxReqPerSec ≤ 0)
    (mux : ServeMux) :
    (NewGCRARateLimiter ⟨PerSec i.maxReqPerSec, i.maxBurst⟩).isOk = false ∧
    (LoadGateway mux items).isOk = false :=
  ⟨NewGCRARateLimiter_isOk_false_of_nonpos i.maxReqPerSec i.maxBurst hr,
    LoadGateway_isOk_false_of_bad_rate items mux i hi hr⟩

/-- C9 witness: a single route with rate 0 fails construction and loading. -/
theorem C9_nonpositive_rate_fatal_check :
    ((⟨"/a", "http://b", 0, 0, "a"⟩ : GatewayItem) ∈
        [(⟨"/a", "http://b", 0, 0, "a"⟩ : GatewayItem)] ∧
      (⟨"/a", "http://b", 0, 0, "a"⟩ : GatewayItem).maxReqPerSec ≤ 0) ∧
    ((NewGCRARateLimiter ⟨PerSec 0, 0⟩).isOk = false ∧
      (LoadGateway [] [⟨"/a", "http://b", 0, 0, "a"⟩]).isOk = false) :=
  ⟨⟨by decide, by decide⟩,
    C9_nonpositive_rate_fatal [⟨"/a", "http://b", 0, 0, "a"⟩]
      ⟨"/a", "http://b", 0, 0, "a"⟩ (by decide) (by decide) []⟩

end IceFlowLimiter
